import Mathlib

/-!
Shallow embedding of the license server (`license_server.py`): the license
data model, the activation/verification state machine, the administrative
operations, the audit-log write path and the key generator, together with
theorems settling the specification claims about them.

Modelling conventions: SQLite rows become a Lean structure with the same
column names; the licenses table is a `List License` and the activity_logs
table a `List AuditEntry`; ISO-8601 timestamps become `Int` instants (one
day = 86400); `datetime.now()` becomes an explicit `now` parameter; the
request origin becomes an explicit `ip` parameter; `secrets.token_hex(10)`
becomes an explicit list of the consumed random bytes.  Each Flask handler
becomes a function from the store (and its request data) to a result
together with the updated store and log.
-/

/-- One row of the `licenses` table (schema in `init_db`). -/
structure License where
  key : String
  hwid : Option String
  type : String
  created_at : Int
  expires_at : Option Int
  activated : Bool
  blocked : Bool
  activation_date : Option Int
  activation_ip : Option String
  notes : String
deriving DecidableEq

/-- One row of the `activity_logs` table. -/
structure AuditEntry where
  timestamp : Int
  action : String
  license_key : Option String
  hwid : Option String
  ip_address : String
  details : Option String
deriving DecidableEq

/-- `log_activity`: append one row to the activity log. -/
def log_activity (logs : List AuditEntry) (now : Int) (ip : String) (action : String)
    (license_key : Option String) (hwid : Option String) (details : Option String) :
    List AuditEntry :=
  logs ++ [⟨now, action, license_key, hwid, ip, details⟩]

/-- `SELECT * FROM licenses WHERE key=?` followed by `fetchone()`. -/
def findLicense (db : List License) (k : String) : Option License :=
  db.find? (fun l => l.key == k)

/-- Number of rows matching a key (the `rowcount` of a keyed UPDATE/DELETE). -/
def countKey (db : List License) (k : String) : Nat :=
  (db.filter (fun l => l.key == k)).length

/-- The expiry test used by every handler:
`expires_at` non-null and `datetime.fromisoformat(expires_at) < now`. -/
def isExpiredAt (l : License) (now : Int) : Bool :=
  match l.expires_at with
  | some e => decide (e < now)
  | none => false

/-- Seconds in one `timedelta(days=1)`. -/
def daySecs : Int := 86400

/-- The byte-count argument of the `secrets.token_hex(10)` call in
`generate_license_key`: the number of random bytes a key consumes. -/
def tokenHexNBytes : Nat := 10

/-- The sixteen characters hex digits are drawn from (`token_hex` output is
upper-cased by the source). -/
def hexList : List Char := "0123456789ABCDEF".toList

/-- The `n`-th uppercase hex digit. -/
def hexUpperDigit (n : Nat) : Char :=
  hexList.getD n '0'

/-- Two uppercase hex characters of one byte. -/
def byteHex (b : Nat) : List Char :=
  [hexUpperDigit (b / 16), hexUpperDigit (b % 16)]

/-- `secrets.token_hex(...).upper()` as a function of the consumed bytes. -/
def token_hex (bytes : List Nat) : List Char :=
  (bytes.map byteHex).flatten

/-- `generate_license_key`: hex-encode the random bytes, slice the twenty
characters as `[:4] [4:8] [8:12] [12:16] [16:]` joined with dashes, and
prepend `pfx ++ "-"` when the class tag `pfx` is nonempty. -/
def generate_license_key (pfx : String) (bytes : List Nat) : String :=
  let r := token_hex bytes
  let key := String.mk (r.take 4) ++ "-" ++ String.mk ((r.drop 4).take 4) ++ "-" ++
      String.mk ((r.drop 8).take 4) ++ "-" ++ String.mk ((r.drop 12).take 4) ++ "-" ++
      String.mk (r.drop 16)
  if pfx ≠ "" then pfx ++ "-" ++ key else key

/-- Result of `POST /api/activate`. -/
inductive ActResult where
  | missingInput
  | invalidKey
  | blockedLicense
  | expiredLicense
  | deviceMismatch
  | activatedOk (ltype : String) (expires : Option Int)
deriving DecidableEq

/-- The body of `activate_license` after its `fetchone()`: all decisions are
taken from the snapshot `row`, while the first-activation UPDATE
(`SET hwid=?, activated=1, ... WHERE key=?` — no condition on `activated`)
is applied to the current table `db`.  The single-request handler runs this
immediately after its own read; under concurrency another request's write
may land between the two. -/
def activate_after_select (row : Option License) (db : List License)
    (logs : List AuditEntry) (now : Int) (key hwid ip : String) :
    ActResult × List License × List AuditEntry :=
  match row with
  | none =>
      (.invalidKey, db,
       log_activity logs now ip "ACTIVATION_FAILED" (some key) (some hwid) (some "Key not found"))
  | some row =>
      if row.blocked then
        (.blockedLicense, db,
         log_activity logs now ip "ACTIVATION_BLOCKED" (some key) (some hwid) (some "Key is blocked"))
      else if isExpiredAt row now then
        (.expiredLicense, db,
         log_activity logs now ip "ACTIVATION_EXPIRED" (some key) (some hwid) (some "Key expired"))
      else if row.activated then
        if row.hwid ≠ some hwid then
          (.deviceMismatch, db,
           log_activity logs now ip "ACTIVATION_HWID_MISMATCH" (some key) (some hwid)
             (some ("Expected: " ++ String.mk ((row.hwid.getD "").toList.take 16))))
        else
          (.activatedOk row.type row.expires_at, db, logs)
      else
        (.activatedOk row.type row.expires_at,
         db.map (fun l =>
           if l.key == key then
             { l with hwid := some hwid, activated := true,
                      activation_date := some now, activation_ip := some ip }
           else l),
         log_activity logs now ip "ACTIVATION_SUCCESS" (some key) (some hwid)
           (some ("Type: " ++ row.type)))

/-- `activate_license` (`POST /api/activate`): input check, then one
SELECT, then the decision and (possibly) the UPDATE of
`activate_after_select`. -/
def activate_license (db : List License) (logs : List AuditEntry) (now : Int)
    (key hwid ip : String) : ActResult × List License × List AuditEntry :=
  if key = "" ∨ hwid = "" then (.missingInput, db, logs)
  else activate_after_select (findLicense db key) db logs now key hwid ip

/-- Result of `POST /api/verify`. -/
inductive VerifyResult where
  | invalid (msg : String)
  | valid (ltype : String) (expires : Option Int)
deriving DecidableEq

/-- `verify_license` (`POST /api/verify`): read-only; note the source calls
`log_activity` on no path of this handler, so the log is returned
unchanged, and the `hwid` comparison precedes the expiry check. -/
def verify_license (db : List License) (logs : List AuditEntry) (now : Int)
    (key hwid : String) : VerifyResult × List AuditEntry :=
  if key = "" ∨ hwid = "" then (.invalid "Missing data", logs)
  else
    match findLicense db key with
    | none => (.invalid "Key not found", logs)
    | some row =>
      if row.blocked then (.invalid "License blocked", logs)
      else if row.hwid ≠ some hwid then (.invalid "HWID mismatch", logs)
      else if isExpiredAt row now then (.invalid "License expired", logs)
      else (.valid row.type row.expires_at, logs)

/-- Result of the keyed admin mutations (block/unblock/reset-hwid/delete). -/
inductive AdminResult where
  | keyRequired
  | notFound
  | ok
deriving DecidableEq

/-- `block_license` (`POST /admin/block`): `UPDATE licenses SET blocked=1
WHERE key=?`; a zero rowcount returns 404 before `log_activity` runs. -/
def block_license (db : List License) (logs : List AuditEntry) (now : Int)
    (key ip : String) : AdminResult × List License × List AuditEntry :=
  if key = "" then (.keyRequired, db, logs)
  else
    let db' := db.map (fun l => if l.key == key then { l with blocked := true } else l)
    if countKey db key = 0 then (.notFound, db', logs)
    else (.ok, db', log_activity logs now ip "KEY_BLOCKED" (some key) none none)

/-- `unblock_license` (`POST /admin/unblock`). -/
def unblock_license (db : List License) (logs : List AuditEntry) (now : Int)
    (key ip : String) : AdminResult × List License × List AuditEntry :=
  if key = "" then (.keyRequired, db, logs)
  else
    let db' := db.map (fun l => if l.key == key then { l with blocked := false } else l)
    if countKey db key = 0 then (.notFound, db', logs)
    else (.ok, db', log_activity logs now ip "KEY_UNBLOCKED" (some key) none none)

/-- `reset_hwid` (`POST /admin/reset-hwid`): clears `hwid`, `activated`,
`activation_date`, `activation_ip`. -/
def reset_hwid (db : List License) (logs : List AuditEntry) (now : Int)
    (key ip : String) : AdminResult × List License × List AuditEntry :=
  if key = "" then (.keyRequired, db, logs)
  else
    let db' := db.map (fun l =>
      if l.key == key then
        { l with hwid := none, activated := false, activation_date := none, activation_ip := none }
      else l)
    if countKey db key = 0 then (.notFound, db', logs)
    else (.ok, db', log_activity logs now ip "HWID_RESET" (some key) none none)

/-- `delete_license` (`POST /admin/delete`). -/
def delete_license (db : List License) (logs : List AuditEntry) (now : Int)
    (key ip : String) : AdminResult × List License × List AuditEntry :=
  if key = "" then (.keyRequired, db, logs)
  else
    let db' := db.filter (fun l => l.key != key)
    if countKey db key = 0 then (.notFound, db', logs)
    else (.ok, db', log_activity logs now ip "KEY_DELETED" (some key) none none)

/-- Result of `POST /admin/extend`. -/
inductive ExtendResult where
  | keyRequired
  | notFound
  | notExtensible
  | extended (newExpiry : Int)
deriving DecidableEq

/-- `extend_license` (`POST /admin/extend`): a null `expires_at` (lifetime)
is rejected; otherwise the base is moved up to `now` when already past, and
`days` days are added; only `expires_at` is written. -/
def extend_license (db : List License) (logs : List AuditEntry) (now : Int)
    (key : String) (days : Int) (ip : String) :
    ExtendResult × List License × List AuditEntry :=
  if key = "" then (.keyRequired, db, logs)
  else
    match findLicense db key with
    | none => (.notFound, db, logs)
    | some row =>
      match row.expires_at with
      | none => (.notExtensible, db, logs)
      | some e =>
        let cur := if e < now then now else e
        let newExpiry := cur + days * daySecs
        (.extended newExpiry,
         db.map (fun l => if l.key == key then { l with expires_at := some newExpiry } else l),
         log_activity logs now ip "KEY_EXTENDED" (some key) none
           (some ("Added " ++ toString days ++ " days")))

/-- The class-tag table of `generate_license`; an unknown class falls back
to the bare `"RBXMT"` tag (`prefix_map.get(license_type, 'RBXMT')`). -/
def classTag (t : String) : String :=
  if t = "trial_1day" then "RBXMT-T1D"
  else if t = "trial_3days" then "RBXMT-T3D"
  else if t = "weekly" then "RBXMT-WKY"
  else if t = "monthly" then "RBXMT-MTH"
  else if t = "yearly" then "RBXMT-YRL"
  else if t = "lifetime" then "RBXMT-LTM"
  else "RBXMT"

/-- The duration table of `generate_license`; `lifetime` maps to `None`
and so does any unknown class (`duration_map.get(license_type)`). -/
def duration_map (t : String) : Option Int :=
  if t = "trial_1day" then some 1
  else if t = "trial_3days" then some 3
  else if t = "weekly" then some 7
  else if t = "monthly" then some 30
  else if t = "yearly" then some 365
  else none

/-- `generate_license` (`POST /admin/generate`): cap the count at 100,
insert that many fresh rows (null `hwid`, defaults `activated=0`,
`blocked=0`), null expiry when the duration is `None`, then one
`KEYS_GENERATED` log entry.  `seeds` supplies the random bytes each
`generate_license_key` call consumes. -/
def generate_license (db : List License) (logs : List AuditEntry) (now : Int)
    (ltype : String) (count : Int) (notes : String) (ip : String)
    (seeds : List (List Nat)) :
    List String × List License × List AuditEntry :=
  let c := min count 100
  let days := duration_map ltype
  let keys := (List.range c.toNat).map (fun i => generate_license_key (classTag ltype) (seeds.getD i []))
  let expires : Option Int := match days with
    | some d => some (now + d * daySecs)
    | none => none
  let newRows := keys.map (fun k =>
    { key := k, hwid := none, type := ltype, created_at := now, expires_at := expires,
      activated := false, blocked := false, activation_date := none, activation_ip := none,
      notes := notes : License })
  (keys, db ++ newRows,
   log_activity logs now ip "KEYS_GENERATED" none none
     (some ("Type: " ++ ltype ++ ", Count: " ++ toString c)))

/-- The status computation inlined in the `list_licenses` row loop:
blocked, else past expiry, else activated/active, else pending. -/
def list_status (l : License) (now : Int) : String :=
  if l.blocked then "blocked"
  else if isExpiredAt l now then "expired"
  else if l.activated then "active"
  else "pending"

/-- Modelled from the spec: the centralized pure
`statusOf(license, now) -> {active, blocked, expired, pending}` as the
priority-ordered decision `blocked > expired > (activated ? active :
pending)`, for comparison with the status computations at each call
site. -/
def statusOf (l : License) (now : Int) : String :=
  if l.blocked then "blocked"
  else if isExpiredAt l now then "expired"
  else if l.activated then "active"
  else "pending"

/-- The status computation of the text branch of `export_licenses`:
`"BLOCKED" if blocked else ("ACTIVE" if activated else "PENDING")` —
there is no expiry case. -/
def export_status (l : License) : String :=
  if l.blocked then "BLOCKED"
  else if l.activated then "ACTIVE"
  else "PENDING"

/-- The uppercase export labels read as status categories. -/
def statusCategory (s : String) : String :=
  if s = "BLOCKED" then "blocked"
  else if s = "ACTIVE" then "active"
  else if s = "PENDING" then "pending"
  else s

/-- `SELECT COUNT(*) FROM licenses WHERE activated=1` of `get_stats`. -/
def stats_activated (db : List License) : Nat :=
  (db.filter (fun l => l.activated)).length

/-- `SELECT COUNT(*) FROM licenses WHERE blocked=1` of `get_stats`. -/
def stats_blocked (db : List License) : Nat :=
  (db.filter (fun l => l.blocked)).length

/-- `... WHERE activated=0 AND blocked=0` of `get_stats`. -/
def stats_pending (db : List License) : Nat :=
  (db.filter (fun l => !l.activated && !l.blocked)).length

/-- `... WHERE expires_at IS NOT NULL AND expires_at < now` of `get_stats`. -/
def stats_expired (db : List License) (now : Int) : Nat :=
  (db.filter (fun l => isExpiredAt l now)).length

/-- Character-list matcher for SQL `LIKE '%pat%'`: `likeHere` tests a match
at the head, `likeMatch` at any position. -/
def likeHere : List Char → List Char → Bool
  | [], _ => true
  | _ :: _, [] => false
  | c :: p, d :: s => c == d && likeHere p s

/-- Whether `pat` occurs contiguously anywhere in `s`. -/
def likeMatch (pat : List Char) : List Char → Bool
  | [] => likeHere pat []
  | d :: s => likeHere pat (d :: s) || likeMatch pat s

/-- The SQL query of `list_licenses`: the optional `type` equality, the
optional key/hwid `LIKE` search (a null `hwid` matches nothing), `ORDER BY
created_at DESC`, and `LIMIT lim` — the limit is applied here, before the
Python-side status filter. -/
def list_query (db : List License) (ftype : Option String) (search : String)
    (lim : Int) : List License :=
  let rows := match ftype with
    | some t => db.filter (fun l => l.type == t)
    | none => db
  let rows := if search = "" then rows
    else rows.filter (fun l =>
      likeMatch search.toList l.key.toList ||
      (match l.hwid with
       | some h => likeMatch search.toList h.toList
       | none => false))
  (List.insertionSort (fun a b => b.created_at ≤ a.created_at) rows).take lim.toNat

/-- `list_licenses` (`GET /admin/list`): cap the requested limit at 500,
run the query, then compute each row's status and drop rows failing the
status filter (a Python-falsy empty filter string disables it). -/
def list_licenses (db : List License) (ftype fstatus : Option String)
    (search : String) (limitReq : Int) (now : Int) : List (License × String) :=
  let lim := min limitReq 500
  (list_query db ftype search lim).filterMap (fun row =>
    let status := list_status row now
    let skip : Bool := match fstatus with
      | some fs => fs != "" && status != fs
      | none => false
    if skip then none else some (row, status))

/-- The whole mutable server state: the two persisted record sets. -/
structure ServerState where
  licenses : List License
  logs : List AuditEntry
deriving DecidableEq

/-- Result of a handler behind `admin_required`. -/
inductive AuthResult (α : Type) where
  | unauthorized
  | handled (a : α)

/-- `admin_required`: a missing or wrong `Authorization` header logs one
`UNAUTHORIZED_ACCESS` entry and returns 401 without running the wrapped
handler; otherwise the handler runs on the untouched state. -/
def admin_required {α : Type} (auth : Option String) (password : String)
    (now : Int) (ip : String) (handler : ServerState → α × ServerState)
    (s : ServerState) : AuthResult α × ServerState :=
  if auth ≠ some ("Bearer " ++ password) then
    let newLogs := log_activity s.logs now ip "UNAUTHORIZED_ACCESS" none none (some ("IP: " ++ ip))
    (.unauthorized, { s with logs := newLogs })
  else
    let r := handler s
    (.handled r.1, r.2)

/-- `check_rate_limit`: drop timestamps at or before `now - 60`, refuse
when ten or more remain, otherwise record `now`. -/
def check_rate_limit (times : List Int) (now : Int) : Bool × List Int :=
  let windowStart := now - 60
  let ts := times.filter (fun t => windowStart < t)
  if 10 ≤ ts.length then (false, ts)
  else (true, ts ++ [now])

/-- `rate_limited`: an over-limit source logs one `RATE_LIMIT_EXCEEDED`
entry and is refused (429) without running the wrapped handler. -/
def rate_limited {α : Type} (times : List Int) (now : Int) (ip : String)
    (handler : ServerState → α × ServerState) (s : ServerState) :
    Option α × ServerState × List Int :=
  match check_rate_limit times now with
  | (false, ts) =>
      let newLogs := log_activity s.logs now ip "RATE_LIMIT_EXCEEDED" none none (some ("IP: " ++ ip))
      (none, { s with logs := newLogs }, ts)
  | (true, ts) =>
      let r := handler s
      (some r.1, r.2, ts)

/-- With nonempty inputs the activation handler is exactly one SELECT
followed by `activate_after_select` on its own snapshot. -/
theorem activate_license_phases (db : List License) (logs : List AuditEntry) (now : Int)
    (key d ip : String) (hk : key ≠ "") (hd : d ≠ "") :
    activate_license db logs now key d ip =
      activate_after_select (findLicense db key) db logs now key d ip := by
  unfold activate_license
  rw [if_neg (by simp [hk, hd])]

/-- A fresh pending, unblocked, non-expiring license. -/
def raceFresh : License := ⟨"K", none, "monthly", 0, none, false, false, none, none, ""⟩

/-- Store holding just the fresh license. -/
def raceDb : List License := [raceFresh]

/-- First racing client: SELECT against the initial store, decision and
UPDATE also against the initial store. -/
def raceRun1 : ActResult × List License × List AuditEntry :=
  activate_after_select (findLicense raceDb "K") raceDb [] 5 "K" "D1" "ip1"

/-- Second racing client: its SELECT also ran against the initial store
(before the first client's UPDATE landed), while its decision and UPDATE
run against the store the first client already wrote. -/
def raceRun2 : ActResult × List License × List AuditEntry :=
  activate_after_select (findLicense raceDb "K") raceRun1.2.1 raceRun1.2.2 5 "K" "D2" "ip2"

/-- The store as the first client's UPDATE leaves it: bound to D1. -/
def raceBoundD1 : License := ⟨"K", some "D1", "monthly", 0, none, true, false, some 5, some "ip1", ""⟩

/-- Claim C1: the claim fails on the code.  The first-activation write is a
plain `UPDATE ... WHERE key=?` issued after a separate SELECT, with no
guard on `activated` still being false; in the interleaving where both
SELECTs precede both UPDATEs, both concurrent activations of a fresh key
succeed and the second silently overwrites the first device binding —
never observing `DeviceMismatch`. -/
theorem c1_concurrent_activation_both_succeed :
    raceRun1.1 = ActResult.activatedOk "monthly" none ∧
    raceRun2.1 = ActResult.activatedOk "monthly" none ∧
    raceRun1.2.1 = [raceBoundD1] ∧
    (findLicense raceRun2.2.1 "K").map (fun l => l.hwid) = some (some "D2") := by
  decide

/-- A blocked license that is the newest row of the C10 store. -/
def c10Blocked : License := ⟨"A", none, "monthly", 10, none, false, true, none, none, ""⟩

/-- A pending license that is the older row of the C10 store. -/
def c10Pending : License := ⟨"B", none, "monthly", 5, none, false, false, none, none, ""⟩

/-- The two-license store of the C10 instance. -/
def c10Db : List License := [c10Blocked, c10Pending]

/-- Claim C10: the LIMIT is applied inside the query before the computed
status filter: with limit 1 over a store whose newest row is blocked and
whose older row is pending, the pending-filtered listing is empty although
a pending license exists (and limit 2 does return it). -/
theorem c10_limit_applied_before_status_filter :
    list_licenses c10Db none (some "pending") "" 1 20 = [] ∧
    (c10Db.filter (fun l => list_status l 20 == "pending")).length = 1 ∧
    list_licenses c10Db none (some "pending") "" 2 20 = [(c10Pending, "pending")] := by
  decide

/-- Claim C8: verify on a never-activated license (stored hwid null, not
blocked) reports `HWID mismatch` for every supplied device id, whatever
its expiry — the device check precedes the expiry check. -/
theorem c8_verify_null_hwid_mismatch (db : List License) (logs : List AuditEntry)
    (now : Int) (key d : String) (row : License)
    (hk : key ≠ "") (hd : d ≠ "")
    (hfind : findLicense db key = some row)
    (hh : row.hwid = none) (hb : row.blocked = false) :
    (verify_license db logs now key d).1 = VerifyResult.invalid "HWID mismatch" := by
  unfold verify_license
  rw [if_neg (by simp [hk, hd]), hfind]
  simp [hb, hh]

/-- An expired, never-activated license for the C8 witness. -/
def c8Expired : License := ⟨"K8", none, "weekly", 0, some 1, false, false, none, none, ""⟩

/-- Witness for C8 at an expired never-activated license and a concrete
device id. -/
theorem c8_verify_null_hwid_mismatch_witness :
    (verify_license [c8Expired] [] 100 "K8" "DEV").1 = VerifyResult.invalid "HWID mismatch" :=
  c8_verify_null_hwid_mismatch [c8Expired] [] 100 "K8" "DEV" c8Expired
    (by decide) (by decide) (by decide) (by decide) (by decide)

/-- Claim C4: on an already-activated, unblocked, unexpired license,
activation succeeds idempotently from the stored device and fails with a
device mismatch from any other device; in both cases the licenses table is
unchanged (and the idempotent success writes no log either). -/
theorem c4_idempotent_reactivation (db : List License) (logs : List AuditEntry) (now : Int)
    (key d ip : String) (row : License)
    (hk : key ≠ "") (hd : d ≠ "")
    (hfind : findLicense db key = some row)
    (ha : row.activated = true) (hb : row.blocked = false)
    (he : isExpiredAt row now = false) :
    (row.hwid = some d →
      (activate_license db logs now key d ip).1 = ActResult.activatedOk row.type row.expires_at ∧
      (activate_license db logs now key d ip).2.1 = db ∧
      (activate_license db logs now key d ip).2.2 = logs) ∧
    (row.hwid ≠ some d →
      (activate_license db logs now key d ip).1 = ActResult.deviceMismatch ∧
      (activate_license db logs now key d ip).2.1 = db) := by
  constructor
  · intro hm
    unfold activate_license
    rw [if_neg (by simp [hk, hd]), hfind]
    unfold activate_after_select
    simp [hb, he, ha, hm]
  · intro hm
    unfold activate_license
    rw [if_neg (by simp [hk, hd]), hfind]
    unfold activate_after_select
    simp [hb, he, ha, hm]

/-- An activated license bound to device DEV for the C4 witness. -/
def c4Active : License := ⟨"K4", some "DEV", "monthly", 0, none, true, false, some 1, some "i", ""⟩

/-- Witness for C4: re-activation from DEV succeeds and changes nothing;
activation from OTHER mismatches and changes nothing. -/
theorem c4_idempotent_reactivation_witness :
    ((activate_license [c4Active] [] 5 "K4" "DEV" "ip").1 =
        ActResult.activatedOk c4Active.type c4Active.expires_at ∧
      (activate_license [c4Active] [] 5 "K4" "DEV" "ip").2.1 = [c4Active] ∧
      (activate_license [c4Active] [] 5 "K4" "DEV" "ip").2.2 = []) ∧
    ((activate_license [c4Active] [] 5 "K4" "OTHER" "ip").1 = ActResult.deviceMismatch ∧
      (activate_license [c4Active] [] 5 "K4" "OTHER" "ip").2.1 = [c4Active]) :=
  ⟨(c4_idempotent_reactivation [c4Active] [] 5 "K4" "DEV" "ip" c4Active
      (by decide) (by decide) (by decide) (by decide) (by decide) (by decide)).1 (by decide),
   (c4_idempotent_reactivation [c4Active] [] 5 "K4" "OTHER" "ip" c4Active
      (by decide) (by decide) (by decide) (by decide) (by decide) (by decide)).2 (by decide)⟩

/-- Claim C3: extending an existing license fails with NotExtensible when
its stored expiry is null, and otherwise sets the expiry to
max(now, current expiry) + days, leaving every other field of every
license unchanged. -/
theorem c3_extend_from_max_now_expiry (db : List License) (logs : List AuditEntry) (now : Int)
    (key ip : String) (days : Int) (row : License)
    (hk : key ≠ "") (hfind : findLicense db key = some row) :
    (row.expires_at = none →
      extend_license db logs now key days ip = (ExtendResult.notExtensible, db, logs)) ∧
    (∀ e, row.expires_at = some e →
      (extend_license db logs now key days ip).1 =
        ExtendResult.extended (max now e + days * daySecs) ∧
      (extend_license db logs now key days ip).2.1 =
        db.map (fun l => if l.key == key then
          { l with expires_at := some (max now e + days * daySecs) } else l)) := by
  constructor
  · intro hnone
    unfold extend_license
    rw [if_neg hk, hfind]
    dsimp only
    rw [hnone]
  · intro e he
    have hmax : (if e < now then now else e) = max now e := by
      rcases lt_or_le e now with h | h
      · rw [if_pos h, max_eq_left h.le]
      · rw [if_neg (not_lt.mpr h), max_eq_right h]
    unfold extend_license
    rw [if_neg hk, hfind]
    dsimp only
    rw [he]
    dsimp only
    simp only [hmax]
    exact ⟨trivial, trivial⟩

/-- An expired weekly license for the C3 witness. -/
def c3Expired : License := ⟨"K3", some "H", "weekly", 0, some 50, true, false, some 1, some "i", ""⟩

/-- A lifetime license for the C3 witness. -/
def c3Life : License := ⟨"KL", some "H", "lifetime", 0, none, true, false, some 1, some "i", ""⟩

/-- Witness for C3: extending the expired license by 7 days yields
max(now, old) + 7 days = now + 7 days, and extending the lifetime license
is rejected. -/
theorem c3_extend_from_max_now_expiry_witness :
    (extend_license [c3Expired] [] 100 "K3" 7 "ip").1 =
      ExtendResult.extended (max (100 : Int) 50 + 7 * daySecs) ∧
    extend_license [c3Life] [] 100 "KL" 7 "ip" = (ExtendResult.notExtensible, [c3Life], []) :=
  ⟨((c3_extend_from_max_now_expiry [c3Expired] [] 100 "K3" "ip" 7 c3Expired
      (by decide) (by decide)).2 50 (by decide)).1,
   (c3_extend_from_max_now_expiry [c3Life] [] 100 "KL" "ip" 7 c3Life
      (by decide) (by decide)).1 (by decide)⟩

/-- Counterexample to C7: an admin request with a wrong bearer token does
get a 401 with the licenses untouched, but an UNAUTHORIZED_ACCESS audit
row is written to the store before the 401 is produced. -/
theorem c7_unauthorized_writes_audit_row :
    (admin_required (some "Bearer nope") "pw" 5 "ip" (fun s => ((0 : Nat), s)) ⟨[], []⟩).2.logs =
      [⟨5, "UNAUTHORIZED_ACCESS", none, none, "ip", some "IP: ip"⟩] ∧
    (admin_required (some "Bearer nope") "pw" 5 "ip" (fun s => ((0 : Nat), s)) ⟨[], []⟩).2.logs ≠
      ([] : List AuditEntry) := by
  decide

/-- Claim C7 (amended): a missing or wrong bearer token yields 401 with the
Licenses records unread and unchanged — the wrapped handler never runs,
whatever it is — but one UNAUTHORIZED_ACCESS entry is appended to the
audit log before the 401. -/
theorem c7_unauthorized_amended {α : Type} (auth : Option String) (password : String)
    (now : Int) (ip : String) (handler : ServerState → α × ServerState) (s : ServerState)
    (hw : auth ≠ some ("Bearer " ++ password)) :
    (admin_required auth password now ip handler s).1 = AuthResult.unauthorized ∧
    (admin_required auth password now ip handler s).2.licenses = s.licenses ∧
    (admin_required auth password now ip handler s).2.logs =
      s.logs ++ [⟨now, "UNAUTHORIZED_ACCESS", none, none, ip, some ("IP: " ++ ip)⟩] := by
  unfold admin_required
  rw [if_pos hw]
  exact ⟨rfl, rfl, rfl⟩

/-- Witness for the amended C7 at a concrete absent header and nonempty
state. -/
theorem c7_unauthorized_amended_witness :
    (admin_required (none : Option String) "pw" 5 "ip" (fun s => ((0 : Nat), s))
        ⟨[c4Active], []⟩).1 = AuthResult.unauthorized ∧
    (admin_required (none : Option String) "pw" 5 "ip" (fun s => ((0 : Nat), s))
        ⟨[c4Active], []⟩).2.licenses = [c4Active] ∧
    (admin_required (none : Option String) "pw" 5 "ip" (fun s => ((0 : Nat), s))
        ⟨[c4Active], []⟩).2.logs =
      [] ++ [⟨5, "UNAUTHORIZED_ACCESS", none, none, "ip", some ("IP: " ++ "ip")⟩] :=
  c7_unauthorized_amended none "pw" 5 "ip" (fun s => ((0 : Nat), s)) ⟨[c4Active], []⟩
    (by decide)

/-- An activated, unblocked license past its expiry: the status the call
sites disagree on. -/
def c5Overlap : License := ⟨"K1", some "H", "monthly", 0, some 10, true, false, some 1, some "ip", ""⟩

/-- Counterexample to C5: the activated, unblocked, expired license is
reported `expired` by list but `ACTIVE` by export, and stats counts it
under both the activated and the expired categories (the four category
counts sum to 2 over a one-license store). -/
theorem c5_status_sites_disagree :
    list_status c5Overlap 20 = "expired" ∧
    export_status c5Overlap = "ACTIVE" ∧
    statusCategory (export_status c5Overlap) ≠ list_status c5Overlap 20 ∧
    stats_activated [c5Overlap] = 1 ∧
    stats_expired [c5Overlap] 20 = 1 ∧
    stats_activated [c5Overlap] + stats_blocked [c5Overlap] + stats_pending [c5Overlap] +
      stats_expired [c5Overlap] 20 = 2 := by
  decide

/-- Claim C5 (amended): the status computed inside list is exactly the
spec's priority-ordered pure `statusOf`; export agrees with `statusOf`
whenever the license is blocked or not past expiry but omits the expired
case, and a license both activated and past expiry is counted by stats
under both the activated and the expired categories. -/
theorem c5_status_amended (l : License) (now : Int) :
    list_status l now = statusOf l now ∧
    (l.blocked = true ∨ isExpiredAt l now = false →
      statusCategory (export_status l) = statusOf l now) ∧
    (l.activated = true → isExpiredAt l now = true →
      stats_activated [l] = 1 ∧ stats_expired [l] now = 1) := by
  refine ⟨rfl, ?_, ?_⟩
  · intro h
    rcases h with h | h
    · simp [statusCategory, export_status, statusOf, h]
    · by_cases hb : l.blocked <;> by_cases ha : l.activated <;>
        simp [statusCategory, export_status, statusOf, h, hb, ha]
  · intro ha he
    constructor
    · simp [stats_activated, ha]
    · simp [stats_expired, he]

/-- A blocked license for the C5 witness. -/
def c5Blocked : License := ⟨"K2", some "H", "monthly", 0, some 10, true, true, some 1, some "ip", ""⟩

/-- Witness for the amended C5 at a blocked license and at the overlap
license. -/
theorem c5_status_amended_witness :
    list_status c5Blocked 5 = statusOf c5Blocked 5 ∧
    statusCategory (export_status c5Blocked) = statusOf c5Blocked 5 ∧
    (stats_activated [c5Overlap] = 1 ∧ stats_expired [c5Overlap] 20 = 1) :=
  ⟨(c5_status_amended c5Blocked 5).1,
   (c5_status_amended c5Blocked 5).2.1 (Or.inl rfl),
   (c5_status_amended c5Overlap 20).2.2 rfl (by decide)⟩

/-- Every output of `hexUpperDigit` is one of the sixteen hex characters. -/
theorem hexUpperDigit_mem (n : Nat) : hexUpperDigit n ∈ hexList := by
  unfold hexUpperDigit
  rcases Nat.lt_or_ge n hexList.length with h | h
  · rw [List.getD_eq_getElem hexList '0' h]
    exact List.getElem_mem h
  · rw [List.getD_eq_default hexList '0' h]
    decide

/-- The hex encoding of `n` bytes has `2 * n` characters. -/
theorem token_hex_length (bytes : List Nat) : (token_hex bytes).length = 2 * bytes.length := by
  induction bytes with
  | nil => rfl
  | cons b bs ih =>
    simp only [token_hex, List.map_cons, List.flatten_cons, List.length_append,
      List.length_cons] at ih ⊢
    simp only [byteHex, List.length_cons, List.length_nil]
    omega

/-- Every character of a hex encoding is one of the sixteen hex
characters. -/
theorem mem_token_hex {c : Char} : ∀ {bs : List Nat}, c ∈ token_hex bs → c ∈ hexList := by
  intro bs
  induction bs with
  | nil =>
    intro h
    simp [token_hex] at h
  | cons b bs ih =>
    intro h
    simp only [token_hex, List.map_cons, List.flatten_cons, List.mem_append] at h
    rcases h with h | h
    · simp only [byteHex, List.mem_cons, List.not_mem_nil, or_false] at h
      rcases h with h | h
      · exact h ▸ hexUpperDigit_mem _
      · exact h ▸ hexUpperDigit_mem _
    · exact ih h

/-- Counterexample to C6: the generator consumes `tokenHexNBytes = 10`
random bytes (`secrets.token_hex(10)`), so its random portion ranges over
`256 ^ 10 = 2 ^ 80` values — 80 bits of randomness, strictly below the
claimed 128-bit minimum. -/
theorem c6_randomness_below_128_bits :
    tokenHexNBytes = 10 ∧
    8 * tokenHexNBytes = 80 ∧
    (256 : Nat) ^ tokenHexNBytes = 2 ^ 80 ∧
    (2 : Nat) ^ 80 < 2 ^ 128 ∧
    ¬ (128 ≤ 8 * tokenHexNBytes) := by
  decide

/-- Claim C6 (amended): every generated key is the class tag, a dash, then
five dash-separated groups of four uppercase hex characters; the random
portion is a pure function of the `tokenHexNBytes = 10` random bytes
consumed — 80 bits of randomness, not 128 — and generation reads nothing
but the tag and those bytes (in particular, never the store). -/
theorem c6_key_format_amended (pfx : String) (bytes : List Nat)
    (hlen : bytes.length = tokenHexNBytes) (hp : pfx ≠ "") :
    ∃ g1 g2 g3 g4 g5 : List Char,
      g1.length = 4 ∧ g2.length = 4 ∧ g3.length = 4 ∧ g4.length = 4 ∧ g5.length = 4 ∧
      (∀ c, c ∈ g1 ++ g2 ++ g3 ++ g4 ++ g5 → c ∈ hexList) ∧
      generate_license_key "" bytes =
        String.mk g1 ++ "-" ++ String.mk g2 ++ "-" ++ String.mk g3 ++ "-" ++
          String.mk g4 ++ "-" ++ String.mk g5 ∧
      generate_license_key pfx bytes = pfx ++ "-" ++ generate_license_key "" bytes ∧
      8 * tokenHexNBytes = 80 := by
  have hr : (token_hex bytes).length = 20 := by
    rw [token_hex_length, hlen]
    rfl
  refine ⟨(token_hex bytes).take 4, ((token_hex bytes).drop 4).take 4,
    ((token_hex bytes).drop 8).take 4, ((token_hex bytes).drop 12).take 4,
    (token_hex bytes).drop 16, ?_, ?_, ?_, ?_, ?_, ?_, ?_, ?_, rfl⟩
  · simp [List.length_take, hr]
  · simp [List.length_take, List.length_drop, hr]
  · simp [List.length_take, List.length_drop, hr]
  · simp [List.length_take, List.length_drop, hr]
  · simp [List.length_drop, hr]
  · intro c hc
    refine @mem_token_hex c bytes ?_
    have hsub : ∀ {n m : Nat}, c ∈ ((token_hex bytes).drop n).take m → c ∈ token_hex bytes :=
      fun h => List.drop_subset _ _ (List.take_subset _ _ h)
    simp only [List.mem_append] at hc
    rcases hc with (((h | h) | h) | h) | h
    · exact List.take_subset _ _ h
    · exact hsub h
    · exact hsub h
    · exact hsub h
    · exact List.drop_subset _ _ h
  · rfl
  · unfold generate_license_key
    rw [if_pos hp]
    rfl

/-- Witness for the amended C6 at the monthly tag and ten concrete
bytes. -/
theorem c6_key_format_amended_witness :
    ∃ g1 g2 g3 g4 g5 : List Char,
      g1.length = 4 ∧ g2.length = 4 ∧ g3.length = 4 ∧ g4.length = 4 ∧ g5.length = 4 ∧
      (∀ c, c ∈ g1 ++ g2 ++ g3 ++ g4 ++ g5 → c ∈ hexList) ∧
      generate_license_key "" [0, 1, 2, 3, 4, 5, 6, 7, 8, 255] =
        String.mk g1 ++ "-" ++ String.mk g2 ++ "-" ++ String.mk g3 ++ "-" ++
          String.mk g4 ++ "-" ++ String.mk g5 ∧
      generate_license_key "RBXMT-MTH" [0, 1, 2, 3, 4, 5, 6, 7, 8, 255] =
        "RBXMT-MTH" ++ "-" ++ generate_license_key "" [0, 1, 2, 3, 4, 5, 6, 7, 8, 255] ∧
      8 * tokenHexNBytes = 80 :=
  c6_key_format_amended "RBXMT-MTH" [0, 1, 2, 3, 4, 5, 6, 7, 8, 255] (by decide) (by decide)

/-- Counterexample to C2: a failing verify (key not found) appends no
audit entry, and a NotFound block appends no audit entry either. -/
theorem c2_failures_without_audit :
    (verify_license [] [] 5 "K" "D").1 = VerifyResult.invalid "Key not found" ∧
    (verify_license [] [] 5 "K" "D").2 = ([] : List AuditEntry) ∧
    block_license [] [] 5 "K" "ip" = (AdminResult.notFound, [], ([] : List AuditEntry)) := by
  decide

/-- Claim C2 (amended): every successful administrative mutation — block,
unblock, reset-hwid, delete, extend and generate — appends exactly one
audit entry, and activation failures (not found, blocked, expired, device
mismatch), unauthorized admin requests and rate-limit rejections each
append exactly one audit entry before returning; but verify appends no
audit entry on any path, block/unblock/reset-hwid/delete append none on
their NotFound (affected-count 0) failures, and extend appends none on its
NotFound and lifetime NotExtensible failures. -/
theorem c2_audit_amended :
    (∀ db logs now key d, (verify_license db logs now key d).2 = logs) ∧
    (∀ db logs now key ip, key ≠ "" → countKey db key = 0 →
      (block_license db logs now key ip).1 = AdminResult.notFound ∧
      (block_license db logs now key ip).2.2 = logs) ∧
    (∀ db logs now key ip, key ≠ "" → countKey db key ≠ 0 →
      (block_license db logs now key ip).1 = AdminResult.ok ∧
      (block_license db logs now key ip).2.2 =
        logs ++ [⟨now, "KEY_BLOCKED", some key, none, ip, none⟩]) ∧
    (∀ db logs now key ip, key ≠ "" → countKey db key = 0 →
      (unblock_license db logs now key ip).2.2 = logs) ∧
    (∀ db logs now key ip, key ≠ "" → countKey db key ≠ 0 →
      (unblock_license db logs now key ip).2.2 =
        logs ++ [⟨now, "KEY_UNBLOCKED", some key, none, ip, none⟩]) ∧
    (∀ db logs now key ip, key ≠ "" → countKey db key = 0 →
      (reset_hwid db logs now key ip).2.2 = logs) ∧
    (∀ db logs now key ip, key ≠ "" → countKey db key ≠ 0 →
      (reset_hwid db logs now key ip).2.2 =
        logs ++ [⟨now, "HWID_RESET", some key, none, ip, none⟩]) ∧
    (∀ db logs now key ip, key ≠ "" → countKey db key = 0 →
      (delete_license db logs now key ip).2.2 = logs) ∧
    (∀ db logs now key ip, key ≠ "" → countKey db key ≠ 0 →
      (delete_license db logs now key ip).2.2 =
        logs ++ [⟨now, "KEY_DELETED", some key, none, ip, none⟩]) ∧
    (∀ db logs now key days ip, key ≠ "" → findLicense db key = none →
      (extend_license db logs now key days ip).1 = ExtendResult.notFound ∧
      (extend_license db logs now key days ip).2.2 = logs) ∧
    (∀ db logs now key days ip row, key ≠ "" → findLicense db key = some row →
      row.expires_at = none →
      (extend_license db logs now key days ip).1 = ExtendResult.notExtensible ∧
      (extend_license db logs now key days ip).2.2 = logs) ∧
    (∀ db logs now key days ip row e, key ≠ "" → findLicense db key = some row →
      row.expires_at = some e →
      (extend_license db logs now key days ip).2.2 =
        logs ++ [⟨now, "KEY_EXTENDED", some key, none, ip,
          some ("Added " ++ toString days ++ " days")⟩]) ∧
    (∀ db logs now ltype count notes ip seeds,
      (generate_license db logs now ltype count notes ip seeds).2.2 =
        logs ++ [⟨now, "KEYS_GENERATED", none, none, ip,
          some ("Type: " ++ ltype ++ ", Count: " ++ toString (min count 100))⟩]) ∧
    (∀ db logs now key d ip, key ≠ "" → d ≠ "" → findLicense db key = none →
      (activate_license db logs now key d ip).2.2 =
        logs ++ [⟨now, "ACTIVATION_FAILED", some key, some d, ip, some "Key not found"⟩]) ∧
    (∀ db logs now key d ip row, key ≠ "" → d ≠ "" → findLicense db key = some row →
      row.blocked = true →
      (activate_license db logs now key d ip).2.2 =
        logs ++ [⟨now, "ACTIVATION_BLOCKED", some key, some d, ip, some "Key is blocked"⟩]) ∧
    (∀ db logs now key d ip row, key ≠ "" → d ≠ "" → findLicense db key = some row →
      row.blocked = false → isExpiredAt row now = true →
      (activate_license db logs now key d ip).2.2 =
        logs ++ [⟨now, "ACTIVATION_EXPIRED", some key, some d, ip, some "Key expired"⟩]) ∧
    (∀ db logs now key d ip row, key ≠ "" → d ≠ "" → findLicense db key = some row →
      row.blocked = false → isExpiredAt row now = false → row.activated = true →
      row.hwid ≠ some d →
      (activate_license db logs now key d ip).2.2 =
        logs ++ [⟨now, "ACTIVATION_HWID_MISMATCH", some key, some d, ip,
          some ("Expected: " ++ String.mk ((row.hwid.getD "").toList.take 16))⟩]) ∧
    (∀ (α : Type) (auth : Option String) password now ip
        (handler : ServerState → α × ServerState) s,
      auth ≠ some ("Bearer " ++ password) →
      (admin_required auth password now ip handler s).2.logs =
        s.logs ++ [⟨now, "UNAUTHORIZED_ACCESS", none, none, ip, some ("IP: " ++ ip)⟩]) ∧
    (∀ (α : Type) (times : List Int) now ip
        (handler : ServerState → α × ServerState) s,
      (check_rate_limit times now).1 = false →
      (rate_limited times now ip handler s).2.1.logs =
        s.logs ++ [⟨now, "RATE_LIMIT_EXCEEDED", none, none, ip, some ("IP: " ++ ip)⟩]) := by
  refine ⟨?_, ?_, ?_, ?_, ?_, ?_, ?_, ?_, ?_, ?_, ?_, ?_, ?_, ?_, ?_, ?_, ?_, ?_, ?_⟩
  · intro db logs now key d
    unfold verify_license
    split
    · rfl
    · cases hf : findLicense db key with
      | none => rfl
      | some row =>
        dsimp only
        split
        · rfl
        · split
          · rfl
          · split
            · rfl
            · rfl
  · intro db logs now key ip hk h0
    simp [block_license, hk, h0]
  · intro db logs now key ip hk h0
    simp [block_license, log_activity, hk, h0]
  · intro db logs now key ip hk h0
    simp [unblock_license, hk, h0]
  · intro db logs now key ip hk h0
    simp [unblock_license, log_activity, hk, h0]
  · intro db logs now key ip hk h0
    simp [reset_hwid, hk, h0]
  · intro db logs now key ip hk h0
    simp [reset_hwid, log_activity, hk, h0]
  · intro db logs now key ip hk h0
    simp [delete_license, hk, h0]
  · intro db logs now key ip hk h0
    simp [delete_license, log_activity, hk, h0]
  · intro db logs now key days ip hk hf
    simp [extend_license, hk, hf]
  · intro db logs now key days ip row hk hf hnone
    simp [extend_license, hk, hf, hnone]
  · intro db logs now key days ip row e hk hf he
    simp [extend_license, log_activity, hk, hf, he]
  · intro db logs now ltype count notes ip seeds
    simp [generate_license, log_activity]
  · intro db logs now key d ip hk hd hf
    simp [activate_license, activate_after_select, log_activity, hk, hd, hf]
  · intro db logs now key d ip row hk hd hf hb
    simp [activate_license, activate_after_select, log_activity, hk, hd, hf, hb]
  · intro db logs now key d ip row hk hd hf hb he
    simp [activate_license, activate_after_select, log_activity, hk, hd, hf, hb, he]
  · intro db logs now key d ip row hk hd hf hb he ha hm
    simp [activate_license, activate_after_select, log_activity, hk, hd, hf, hb, he, ha, hm]
  · intro α auth password now ip handler s hw
    unfold admin_required
    rw [if_pos hw]
    simp [log_activity]
  · intro α times now ip handler s hfalse
    unfold rate_limited
    rcases hcr : check_rate_limit times now with ⟨b, ts⟩
    rw [hcr] at hfalse
    cases b
    · simp [log_activity]
    · simp at hfalse

/-- A pending license stored under key KB for the C2 witness. -/
def c2Db : List License := [⟨"KB", none, "monthly", 0, none, false, false, none, none, ""⟩]

/-- An expiring weekly license stored under key KE for the C2 witness. -/
def c2ExpLic : License := ⟨"KE", some "H", "weekly", 0, some 50, true, false, some 1, some "i", ""⟩

/-- Witness for the amended C2: concrete instances of representative
conjuncts with every hypothesis discharged. -/
theorem c2_audit_amended_witness :
    (verify_license [] [] 5 "K" "D").2 = ([] : List AuditEntry) ∧
    (block_license [] [] 5 "K" "ip").1 = AdminResult.notFound ∧
    (block_license c2Db [] 5 "KB" "ip").2.2 =
      [] ++ [⟨5, "KEY_BLOCKED", some "KB", none, "ip", none⟩] ∧
    (extend_license [c2ExpLic] [] 100 "KE" 7 "ip").2.2 =
      [] ++ [⟨100, "KEY_EXTENDED", some "KE", none, "ip",
        some ("Added " ++ toString (7 : Int) ++ " days")⟩] ∧
    (generate_license [] [] 0 "monthly" 1 "" "ip" [[0, 0, 0, 0, 0, 0, 0, 0, 0, 0]]).2.2 =
      [] ++ [⟨0, "KEYS_GENERATED", none, none, "ip",
        some ("Type: " ++ "monthly" ++ ", Count: " ++ toString (min (1 : Int) 100))⟩] ∧
    (activate_license [] [] 5 "K" "D" "ip").2.2 =
      [] ++ [⟨5, "ACTIVATION_FAILED", some "K", some "D", "ip", some "Key not found"⟩] ∧
    (admin_required (none : Option String) "pw" 5 "ip" (fun s => ((0 : Nat), s))
        ⟨[], []⟩).2.logs =
      [] ++ [⟨5, "UNAUTHORIZED_ACCESS", none, none, "ip", some ("IP: " ++ "ip")⟩] ∧
    (rate_limited (List.replicate 10 (100 : Int)) 100 "ip" (fun s => ((0 : Nat), s))
        ⟨[], []⟩).2.1.logs =
      [] ++ [⟨100, "RATE_LIMIT_EXCEEDED", none, none, "ip", some ("IP: " ++ "ip")⟩] := by
  obtain ⟨h1, h2, h3, -, -, -, -, -, -, -, -, hxok, hgen, h14, -, -, -, h18, h19⟩ :=
    c2_audit_amended
  exact ⟨h1 [] [] 5 "K" "D",
    (h2 [] [] 5 "K" "ip" (by decide) (by decide)).1,
    (h3 c2Db [] 5 "KB" "ip" (by decide) (by decide)).2,
    hxok [c2ExpLic] [] 100 "KE" 7 "ip" c2ExpLic 50 (by decide) (by decide) (by decide),
    hgen [] [] 0 "monthly" 1 "" "ip" [[0, 0, 0, 0, 0, 0, 0, 0, 0, 0]],
    h14 [] [] 5 "K" "D" "ip" (by decide) (by decide) (by decide),
    h18 Nat none "pw" 5 "ip" (fun s => ((0 : Nat), s)) ⟨[], []⟩ (by decide),
    h19 Nat (List.replicate 10 (100 : Int)) 100 "ip" (fun s => ((0 : Nat), s)) ⟨[], []⟩
      (by decide)⟩

/-- Claim C9: generate accepts any class string without validation: for a
class outside the six known ones and a requested count within the 0..100
cap, it inserts exactly that many licenses, each with null expiry and a
key bearing the generic RBXMT tag, and returns their keys. -/
theorem c9_generate_unknown_class (db : List License) (logs : List AuditEntry) (now : Int)
    (ltype : String) (count : Int) (notes ip : String) (seeds : List (List Nat))
    (h1 : ltype ≠ "trial_1day") (h2 : ltype ≠ "trial_3days") (h3 : ltype ≠ "weekly")
    (h4 : ltype ≠ "monthly") (h5 : ltype ≠ "yearly") (h6 : ltype ≠ "lifetime")
    (hc0 : 0 ≤ count) (hc : count ≤ 100) :
    (generate_license db logs now ltype count notes ip seeds).1.length = count.toNat ∧
    (generate_license db logs now ltype count notes ip seeds).2.1.length =
      db.length + count.toNat ∧
    ∃ newRows : List License,
      (generate_license db logs now ltype count notes ip seeds).2.1 = db ++ newRows ∧
      newRows.length = count.toNat ∧
      ∀ l ∈ newRows, l.expires_at = none ∧ l.type = ltype ∧
        ∃ rest, l.key = "RBXMT-" ++ rest := by
  have hdur : duration_map ltype = none := by
    simp [duration_map, h1, h2, h3, h4, h5, h6]
  have htag : classTag ltype = "RBXMT" := by
    simp [classTag, h1, h2, h3, h4, h5, h6]
  have hmin : min count 100 = count := min_eq_left hc
  unfold generate_license
  rw [hdur, htag, hmin]
  dsimp only
  refine ⟨by simp, by simp, ⟨_, rfl, by simp, ?_⟩⟩
  intro l hl
  simp only [List.mem_map] at hl
  obtain ⟨k, hk, rfl⟩ := hl
  refine ⟨rfl, rfl, ?_⟩
  obtain ⟨i, -, rfl⟩ := hk
  unfold generate_license_key
  rw [if_pos (by decide : ("RBXMT" : String) ≠ "")]
  have hpre : ("RBXMT" ++ "-" : String) = "RBXMT-" := by decide
  rw [hpre]
  exact ⟨_, rfl⟩

/-- Witness for C9 at the unknown class "vip" with count 2 and concrete
seeds. -/
theorem c9_generate_unknown_class_witness :
    (generate_license [] [] 0 "vip" 2 "" "ip"
        [[0, 0, 0, 0, 0, 0, 0, 0, 0, 0], [1, 0, 0, 0, 0, 0, 0, 0, 0, 0]]).1.length =
      (2 : Int).toNat ∧
    (generate_license [] [] 0 "vip" 2 "" "ip"
        [[0, 0, 0, 0, 0, 0, 0, 0, 0, 0], [1, 0, 0, 0, 0, 0, 0, 0, 0, 0]]).2.1.length =
      ([] : List License).length + (2 : Int).toNat ∧
    ∃ newRows : List License,
      (generate_license [] [] 0 "vip" 2 "" "ip"
          [[0, 0, 0, 0, 0, 0, 0, 0, 0, 0], [1, 0, 0, 0, 0, 0, 0, 0, 0, 0]]).2.1 =
        [] ++ newRows ∧
      newRows.length = (2 : Int).toNat ∧
      ∀ l ∈ newRows, l.expires_at = none ∧ l.type = "vip" ∧
        ∃ rest, l.key = "RBXMT-" ++ rest :=
  c9_generate_unknown_class [] [] 0 "vip" 2 "" "ip"
    [[0, 0, 0, 0, 0, 0, 0, 0, 0, 0], [1, 0, 0, 0, 0, 0, 0, 0, 0, 0]]
    (by decide) (by decide) (by decide) (by decide) (by decide) (by decide)
    (by decide) (by decide)
